import Mathlib

/-
  Verification of the basic audio filters library (first- and second-order
  TPT state-variable filters). The Rust sources in src/first_order_iir.rs and
  src/second_order_iir.rs are shallowly embedded over the reals: f32 values
  become real numbers, f32 arithmetic becomes real arithmetic, tan / sin /
  cos / sqrt become their Real counterparts, powf becomes Real.rpow, and the
  num_complex Complex<f32> values become members of the complex field. The
  mutable filter state is embedded as explicit state passing: process takes a
  state and returns the successor state together with the output sample.
-/

noncomputable section

open Real

/-! # First order filters: src/first_order_iir.rs -/

/-- Coefficient record of the one-pole SVF, from struct IIR1Coefficients. -/
structure IIR1Coefficients where
  a : ℝ
  g : ℝ
  a1 : ℝ
  m0 : ℝ
  m1 : ℝ
  fs : ℝ

/-- From fn get_bode_sample of IIR1Coefficients: z is built from cos and sin
of -TAU * f_hz / fs and the response is m0 + m1 * g * (z + 1) / (g + z * (g - 1) + 1). -/
def IIR1Coefficients.get_bode_sample (c : IIR1Coefficients) (f_hz fs : ℝ) : ℂ :=
  let z : ℝ := -(2 * π) * f_hz / fs
  let zc : ℂ := (Real.cos z : ℂ) + (Real.sin z : ℂ) * Complex.I
  let denominator : ℂ := (c.g : ℂ) + zc * ((c.g : ℂ) - 1) + 1
  (c.m0 : ℂ) + ((c.m1 : ℂ) * (c.g : ℂ) * (zc + 1)) / denominator

/-- From fn empty of IIR1Coefficients. -/
def IIR1Coefficients.empty : IIR1Coefficients :=
  ⟨0, 0, 0, 0, 0, 0⟩

/-- From fn lowpass of IIR1Coefficients. The clamp constant in the source is
the literal 0.0_5, that is 0.05. -/
def IIR1Coefficients.lowpass (f0 _db_gain fs : ℝ) : IIR1Coefficients :=
  let f0 := min f0 (fs * 0.05)
  let a : ℝ := 1
  let g := Real.tan (π * f0 / fs)
  let a1 := g / (1 + g)
  let m0 : ℝ := 0
  let m1 : ℝ := 1
  ⟨a, g, a1, m0, m1, fs⟩

/-- From fn highpass of IIR1Coefficients. -/
def IIR1Coefficients.highpass (f0 _db_gain fs : ℝ) : IIR1Coefficients :=
  let f0 := min f0 (fs * 0.05)
  let a : ℝ := 1
  let g := Real.tan (π * f0 / fs)
  let a1 := g / (1 + g)
  let m0 : ℝ := 1
  let m1 : ℝ := -1
  ⟨a, g, a1, m0, m1, fs⟩

/-- From fn allpass of IIR1Coefficients. -/
def IIR1Coefficients.allpass (f0 _db_gain fs : ℝ) : IIR1Coefficients :=
  let f0 := min f0 (fs * 0.05)
  let a : ℝ := 1
  let g := Real.tan (π * f0 / fs)
  let a1 := g / (1 + g)
  let m0 : ℝ := 1
  let m1 : ℝ := -2
  ⟨a, g, a1, m0, m1, fs⟩

/-- From fn lowshelf of IIR1Coefficients. The amplitude in the source is
1.0f32.powf(db_gain / 20.0): the base is the literal 1.0, embedded as
Real.rpow of the base 1. -/
def IIR1Coefficients.lowshelf (f0 db_gain fs : ℝ) : IIR1Coefficients :=
  let f0 := min f0 (fs * 0.05)
  let a : ℝ := (1 : ℝ) ^ (db_gain / 20)
  let g := Real.tan (π * f0 / fs) / Real.sqrt a
  let a1 := g / (1 + g)
  let m0 : ℝ := 1
  let m1 : ℝ := a - 1
  ⟨a, g, a1, m0, m1, fs⟩

/-- From fn highshelf of IIR1Coefficients. The amplitude in the source is
1.0f32.powf(db_gain / 20.0): the base is the literal 1.0. -/
def IIR1Coefficients.highshelf (f0 db_gain fs : ℝ) : IIR1Coefficients :=
  let f0 := min f0 (fs * 0.05)
  let a : ℝ := (1 : ℝ) ^ (db_gain / 20)
  let g := Real.tan (π * f0 / fs) * Real.sqrt a
  let a1 := g / (1 + g)
  let m0 : ℝ := a
  let m1 : ℝ := 1 - a
  ⟨a, g, a1, m0, m1, fs⟩

/-- Filter state of the one-pole SVF, from struct IIR1: one integrator
register and a copy of the coefficient set. -/
structure IIR1 where
  ic1eq : ℝ
  coeffs : IIR1Coefficients

/-- From fn from of IIR1 (renamed: from is a reserved word in Lean). -/
def IIR1.fromCoefficients (coefficients : IIR1Coefficients) : IIR1 :=
  ⟨0, coefficients⟩

/-- From fn process of IIR1: the mutation of self.ic1eq is embedded by
returning the successor state alongside the output sample. -/
def IIR1.process (s : IIR1) (input : ℝ) : IIR1 × ℝ :=
  let v1 := s.coeffs.a1 * (input - s.ic1eq)
  let v2 := v1 + s.ic1eq
  (⟨v2 + v1, s.coeffs⟩, s.coeffs.m0 * input + s.coeffs.m1 * v2)

/-- From fn update_coefficients of IIR1. -/
def IIR1.update_coefficients (s : IIR1) (new_coefficients : IIR1Coefficients) : IIR1 :=
  ⟨s.ic1eq, new_coefficients⟩

/-! # Second order filters: src/second_order_iir.rs -/

/-- Coefficient record of the two-pole SVF, from struct IIR2Coefficients. -/
structure IIR2Coefficients where
  a : ℝ
  g : ℝ
  gpow2 : ℝ
  k : ℝ
  a1 : ℝ
  a2 : ℝ
  a3 : ℝ
  m0 : ℝ
  m1 : ℝ
  m2 : ℝ

/-- From fn get_bode_sample of IIR2Coefficients. -/
def IIR2Coefficients.get_bode_sample (c : IIR2Coefficients)
    (frequency_hz sample_rate_hz : ℝ) : ℂ :=
  let z : ℝ := -(2 * π) * frequency_hz / sample_rate_hz
  let zc : ℂ := (Real.cos z : ℂ) + (Real.sin z : ℂ) * Complex.I
  let zpow2 : ℂ := zc * zc
  let denominator : ℂ := ((c.gpow2 : ℂ) + (c.g : ℂ) * (c.k : ℂ) + 1)
    + 2 * ((c.gpow2 : ℂ) - 1) * zc
    + ((c.gpow2 : ℂ) - (c.g : ℂ) * (c.k : ℂ) + 1) * zpow2
  (c.m0 : ℂ)
    + ((c.m1 : ℂ) * (c.g : ℂ) * (1 - zpow2) + (c.m2 : ℂ) * (c.gpow2 : ℂ) * (1 + 2 * zc + zpow2))
      / denominator

/-- From fn lowpass of IIR2Coefficients. -/
def IIR2Coefficients.lowpass (cutoff_hz _gain_db q_value sample_rate_hz : ℝ) :
    IIR2Coefficients :=
  let cutoff_hz := min cutoff_hz (sample_rate_hz * 0.5)
  let a : ℝ := 1
  let g := Real.tan (π * cutoff_hz / sample_rate_hz)
  let k := 1 / q_value
  let a1 := 1 / (1 + g * (g + k))
  let a2 := g * a1
  let a3 := g * a2
  let m0 : ℝ := 0
  let m1 : ℝ := 0
  let m2 : ℝ := 1
  ⟨a, g, g * g, k, a1, a2, a3, m0, m1, m2⟩

/-- From fn highpass of IIR2Coefficients. -/
def IIR2Coefficients.highpass (cutoff_hz _gain_db q_value sample_rate_hz : ℝ) :
    IIR2Coefficients :=
  let cutoff_hz := min cutoff_hz (sample_rate_hz * 0.5)
  let a : ℝ := 1
  let g := Real.tan (π * cutoff_hz / sample_rate_hz)
  let k := 1 / q_value
  let a1 := 1 / (1 + g * (g + k))
  let a2 := g * a1
  let a3 := g * a2
  let m0 : ℝ := 1
  let m1 : ℝ := -k
  let m2 : ℝ := -1
  ⟨a, g, g * g, k, a1, a2, a3, m0, m1, m2⟩

/-- From fn bandpass of IIR2Coefficients. -/
def IIR2Coefficients.bandpass (cutoff_hz _gain_db q_value sample_rate_hz : ℝ) :
    IIR2Coefficients :=
  let cutoff_hz := min cutoff_hz (sample_rate_hz * 0.5)
  let a : ℝ := 1
  let g := Real.tan (π * cutoff_hz / sample_rate_hz)
  let k := 1 / q_value
  let a1 := 1 / (1 + g * (g + k))
  let a2 := g * a1
  let a3 := g * a2
  let m0 : ℝ := 0
  let m1 : ℝ := 1
  let m2 : ℝ := 0
  ⟨a, g, g * g, k, a1, a2, a3, m0, m1, m2⟩

/-- From fn notch of IIR2Coefficients. -/
def IIR2Coefficients.notch (cutoff_hz _gain_db q_value sample_rate_hz : ℝ) :
    IIR2Coefficients :=
  let cutoff_hz := min cutoff_hz (sample_rate_hz * 0.5)
  let a : ℝ := 1
  let g := Real.tan (π * cutoff_hz / sample_rate_hz)
  let k := 1 / q_value
  let a1 := 1 / (1 + g * (g + k))
  let a2 := g * a1
  let a3 := g * a2
  let m0 : ℝ := 1
  let m1 : ℝ := -k
  let m2 : ℝ := 0
  ⟨a, g, g * g, k, a1, a2, a3, m0, m1, m2⟩

/-- From fn allpass of IIR2Coefficients. -/
def IIR2Coefficients.allpass (cutoff_hz _gain_db q_value sample_rate_hz : ℝ) :
    IIR2Coefficients :=
  let cutoff_hz := min cutoff_hz (sample_rate_hz * 0.5)
  let a : ℝ := 1
  let g := Real.tan (π * cutoff_hz / sample_rate_hz)
  let k := 1 / q_value
  let a1 := 1 / (1 + g * (g + k))
  let a2 := g * a1
  let a3 := g * a2
  let m0 : ℝ := 1
  let m1 : ℝ := -2 * k
  let m2 : ℝ := 0
  ⟨a, g, g * g, k, a1, a2, a3, m0, m1, m2⟩

/-- From fn lowshelf of IIR2Coefficients: a = 10^(gain_db / 40). -/
def IIR2Coefficients.lowshelf (cutoff_hz gain_db q_value sample_rate_hz : ℝ) :
    IIR2Coefficients :=
  let cutoff_hz := min cutoff_hz (sample_rate_hz * 0.5)
  let a : ℝ := (10 : ℝ) ^ (gain_db / 40)
  let g := Real.tan (π * cutoff_hz / sample_rate_hz) / Real.sqrt a
  let k := 1 / q_value
  let a1 := 1 / (1 + g * (g + k))
  let a2 := g * a1
  let a3 := g * a2
  let m0 : ℝ := 1
  let m1 : ℝ := k * (a - 1)
  let m2 : ℝ := a * a - 1
  ⟨a, g, g * g, k, a1, a2, a3, m0, m1, m2⟩

/-- From fn highshelf of IIR2Coefficients: a = 10^(gain_db / 40). -/
def IIR2Coefficients.highshelf (cutoff_hz gain_db q_value sample_rate_hz : ℝ) :
    IIR2Coefficients :=
  let cutoff_hz := min cutoff_hz (sample_rate_hz * 0.5)
  let a : ℝ := (10 : ℝ) ^ (gain_db / 40)
  let g := Real.tan (π * cutoff_hz / sample_rate_hz) * Real.sqrt a
  let k := 1 / q_value
  let a1 := 1 / (1 + g * (g + k))
  let a2 := g * a1
  let a3 := g * a2
  let m0 : ℝ := a * a
  let m1 : ℝ := k * (1 - a) * a
  let m2 : ℝ := 1 - a * a
  ⟨a, g, g * g, k, a1, a2, a3, m0, m1, m2⟩

/-- From fn bell of IIR2Coefficients: k = 1 / (q_value * a). -/
def IIR2Coefficients.bell (cutoff_hz gain_db q_value sample_rate_hz : ℝ) :
    IIR2Coefficients :=
  let cutoff_hz := min cutoff_hz (sample_rate_hz * 0.5)
  let a : ℝ := (10 : ℝ) ^ (gain_db / 40)
  let g := Real.tan (π * cutoff_hz / sample_rate_hz)
  let k := 1 / (q_value * a)
  let a1 := 1 / (1 + g * (g + k))
  let a2 := g * a1
  let a3 := g * a2
  let m0 : ℝ := 1
  let m1 : ℝ := k * (a * a - 1)
  let m2 : ℝ := 0
  ⟨a, g, g * g, k, a1, a2, a3, m0, m1, m2⟩

/-- Filter state of the two-pole SVF, from struct IIR2: two integrator
registers and a copy of the coefficient set. -/
structure IIR2 where
  ic1eq : ℝ
  ic2eq : ℝ
  coeffs : IIR2Coefficients

/-- From fn from of IIR2 (renamed: from is a reserved word in Lean). -/
def IIR2.fromCoefficients (coefficients : IIR2Coefficients) : IIR2 :=
  ⟨0, 0, coefficients⟩

/-- From fn process of IIR2: the mutations of self.ic1eq and self.ic2eq are
embedded by returning the successor state alongside the output sample. -/
def IIR2.process (s : IIR2) (input_sample : ℝ) : IIR2 × ℝ :=
  let v3 := input_sample - s.ic2eq
  let v1 := s.coeffs.a1 * s.ic1eq + s.coeffs.a2 * v3
  let v2 := s.ic2eq + s.coeffs.a2 * s.ic1eq + s.coeffs.a3 * v3
  (⟨2 * v1 - s.ic1eq, 2 * v2 - s.ic2eq, s.coeffs⟩,
   s.coeffs.m0 * input_sample + s.coeffs.m1 * v1 + s.coeffs.m2 * v2)

/-- From fn update of IIR2. -/
def IIR2.update (s : IIR2) (new_coefficients : IIR2Coefficients) : IIR2 :=
  ⟨s.ic1eq, s.ic2eq, new_coefficients⟩

/-! # Definitions modelled from the spec, for refinement comparison -/

/-- Modelled from the spec, section 4.2: the order-1 per-sample recurrence
v1 = a1 (x - ic1eq), v2 = v1 + ic1eq, next ic1eq = v2 + v1,
output = m0 x + m1 v2, with the coefficient set untouched. -/
def specStep1 (s : IIR1) (x : ℝ) : IIR1 × ℝ :=
  let v1 := s.coeffs.a1 * (x - s.ic1eq)
  let v2 := v1 + s.ic1eq
  (⟨v2 + v1, s.coeffs⟩, s.coeffs.m0 * x + s.coeffs.m1 * v2)

/-- Modelled from the spec, section 4.2: the order-2 per-sample recurrence
v3 = x - ic2eq, v1 = a1 ic1eq + a2 v3, v2 = ic2eq + a2 ic1eq + a3 v3,
next ic1eq = 2 v1 - ic1eq, next ic2eq = 2 v2 - ic2eq,
output = m0 x + m1 v1 + m2 v2, with the coefficient set untouched. -/
def specStep2 (s : IIR2) (x : ℝ) : IIR2 × ℝ :=
  let v3 := x - s.ic2eq
  let v1 := s.coeffs.a1 * s.ic1eq + s.coeffs.a2 * v3
  let v2 := s.ic2eq + s.coeffs.a2 * s.ic1eq + s.coeffs.a3 * v3
  (⟨2 * v1 - s.ic1eq, 2 * v2 - s.ic2eq, s.coeffs⟩,
   s.coeffs.m0 * x + s.coeffs.m1 * v1 + s.coeffs.m2 * v2)

/-- Modelled from the spec, section 4.3: the order-1 response evaluator with
z = exp(-j 2π f/fs) and result m0 + m1 g (z + 1) / (g + z (g - 1) + 1). -/
def specEvaluate1 (c : IIR1Coefficients) (f_hz fs : ℝ) : ℂ :=
  let z : ℂ := Complex.exp ((-(2 * π) * f_hz / fs : ℝ) * Complex.I)
  (c.m0 : ℂ) + (c.m1 : ℂ) * (c.g : ℂ) * (z + 1) / ((c.g : ℂ) + z * ((c.g : ℂ) - 1) + 1)

/-- Modelled from the spec, section 4.3: the order-2 response evaluator with
z = exp(-j 2π f/fs), zpow2 = z², denominator
(gpow2 + g k + 1) + 2 (gpow2 - 1) z + (gpow2 - g k + 1) zpow2 and result
m0 + (m1 g (1 - zpow2) + m2 gpow2 (1 + 2 z + zpow2)) / denominator. -/
def specEvaluate2 (c : IIR2Coefficients) (f_hz fs : ℝ) : ℂ :=
  let z : ℂ := Complex.exp ((-(2 * π) * f_hz / fs : ℝ) * Complex.I)
  let zpow2 := z * z
  (c.m0 : ℂ)
    + ((c.m1 : ℂ) * (c.g : ℂ) * (1 - zpow2) + (c.m2 : ℂ) * (c.gpow2 : ℂ) * (1 + 2 * z + zpow2))
      / (((c.gpow2 : ℂ) + (c.g : ℂ) * (c.k : ℂ) + 1)
        + 2 * ((c.gpow2 : ℂ) - 1) * z
        + ((c.gpow2 : ℂ) - (c.g : ℂ) * (c.k : ℂ) + 1) * zpow2)

/-- Tuple of the fields of an order-2 coefficient set other than the
output-mixing fields m0, m1, m2. -/
def IIR2Coefficients.core (c : IIR2Coefficients) : ℝ × ℝ × ℝ × ℝ × ℝ × ℝ × ℝ :=
  (c.a, c.g, c.gpow2, c.k, c.a1, c.a2, c.a3)

/-! # Theorems for the claims -/

/-- Claim C3: for every coefficient set, prior register values and input
sample, the per-sample process operation of each order computes exactly the
specified recurrence and changes no other state: the result states agree
with the spec recurrence in every field, coefficients included. -/
theorem c3_process_matches_spec_recurrence :
    (∀ (s : IIR1) (x : ℝ), s.process x = specStep1 s x) ∧
    (∀ (s : IIR2) (x : ℝ), s.process x = specStep2 s x) :=
  ⟨fun _ _ => rfl, fun _ _ => rfl⟩

/-- Claim C5: replacing the coefficient set of a filter state stores the new
coefficients and leaves every integrator register exactly as it was. -/
theorem c5_update_preserves_registers :
    (∀ (s : IIR1) (c : IIR1Coefficients),
      (s.update_coefficients c).coeffs = c ∧
      (s.update_coefficients c).ic1eq = s.ic1eq) ∧
    (∀ (s : IIR2) (c : IIR2Coefficients),
      (s.update c).coeffs = c ∧
      (s.update c).ic1eq = s.ic1eq ∧
      (s.update c).ic2eq = s.ic2eq) :=
  ⟨fun _ _ => ⟨rfl, rfl⟩, fun _ _ => ⟨rfl, rfl, rfl⟩⟩

/-- Claim C9: the all-zero register state is a fixed point under zero input
for both orders, and construction and coefficient replacement preserve the
all-zero register state. In the real-number embedding every coefficient
field is a finite real, so the finiteness proviso of the claim holds by
construction. -/
theorem c9_zero_state_fixed_point :
    (∀ c c0 : IIR1Coefficients,
      IIR1.fromCoefficients c = ⟨0, c⟩ ∧
      (IIR1.process ⟨0, c⟩ 0).1 = ⟨0, c⟩ ∧
      (IIR1.process ⟨0, c⟩ 0).2 = 0 ∧
      IIR1.update_coefficients ⟨0, c0⟩ c = ⟨0, c⟩) ∧
    (∀ c c0 : IIR2Coefficients,
      IIR2.fromCoefficients c = ⟨0, 0, c⟩ ∧
      (IIR2.process ⟨0, 0, c⟩ 0).1 = ⟨0, 0, c⟩ ∧
      (IIR2.process ⟨0, 0, c⟩ 0).2 = 0 ∧
      IIR2.update ⟨0, 0, c0⟩ c = ⟨0, 0, c⟩) := by
  constructor
  · intro c c0
    refine ⟨rfl, ?_, ?_, rfl⟩ <;> simp [IIR1.process]
  · intro c c0
    refine ⟨rfl, ?_, ?_, rfl⟩ <;> simp [IIR2.process]

/-- Claim C4: every order-2 designer returns a set whose damping and feedback
fields satisfy k = 1/Q (k = 1/(Q a) for bell), a1 = 1/(1 + g (g + k)),
a2 = g a1, a3 = g a2, with a = 10^(gainDb/40) for the shelving and bell
archetypes and a = 1 otherwise, where g, k, a are the returned fields. -/
theorem c4_feedback_coefficient_relations (f d q fs : ℝ) :
    ((IIR2Coefficients.lowpass f d q fs).a = 1 ∧
     (IIR2Coefficients.lowpass f d q fs).k = 1 / q ∧
     (IIR2Coefficients.lowpass f d q fs).a1 =
       1 / (1 + (IIR2Coefficients.lowpass f d q fs).g *
         ((IIR2Coefficients.lowpass f d q fs).g + (IIR2Coefficients.lowpass f d q fs).k)) ∧
     (IIR2Coefficients.lowpass f d q fs).a2 =
       (IIR2Coefficients.lowpass f d q fs).g * (IIR2Coefficients.lowpass f d q fs).a1 ∧
     (IIR2Coefficients.lowpass f d q fs).a3 =
       (IIR2Coefficients.lowpass f d q fs).g * (IIR2Coefficients.lowpass f d q fs).a2) ∧
    ((IIR2Coefficients.highpass f d q fs).a = 1 ∧
     (IIR2Coefficients.highpass f d q fs).k = 1 / q ∧
     (IIR2Coefficients.highpass f d q fs).a1 =
       1 / (1 + (IIR2Coefficients.highpass f d q fs).g *
         ((IIR2Coefficients.highpass f d q fs).g + (IIR2Coefficients.highpass f d q fs).k)) ∧
     (IIR2Coefficients.highpass f d q fs).a2 =
       (IIR2Coefficients.highpass f d q fs).g * (IIR2Coefficients.highpass f d q fs).a1 ∧
     (IIR2Coefficients.highpass f d q fs).a3 =
       (IIR2Coefficients.highpass f d q fs).g * (IIR2Coefficients.highpass f d q fs).a2) ∧
    ((IIR2Coefficients.bandpass f d q fs).a = 1 ∧
     (IIR2Coefficients.bandpass f d q fs).k = 1 / q ∧
     (IIR2Coefficients.bandpass f d q fs).a1 =
       1 / (1 + (IIR2Coefficients.bandpass f d q fs).g *
         ((IIR2Coefficients.bandpass f d q fs).g + (IIR2Coefficients.bandpass f d q fs).k)) ∧
     (IIR2Coefficients.bandpass f d q fs).a2 =
       (IIR2Coefficients.bandpass f d q fs).g * (IIR2Coefficients.bandpass f d q fs).a1 ∧
     (IIR2Coefficients.bandpass f d q fs).a3 =
       (IIR2Coefficients.bandpass f d q fs).g * (IIR2Coefficients.bandpass f d q fs).a2) ∧
    ((IIR2Coefficients.notch f d q fs).a = 1 ∧
     (IIR2Coefficients.notch f d q fs).k = 1 / q ∧
     (IIR2Coefficients.notch f d q fs).a1 =
       1 / (1 + (IIR2Coefficients.notch f d q fs).g *
         ((IIR2Coefficients.notch f d q fs).g + (IIR2Coefficients.notch f d q fs).k)) ∧
     (IIR2Coefficients.notch f d q fs).a2 =
       (IIR2Coefficients.notch f d q fs).g * (IIR2Coefficients.notch f d q fs).a1 ∧
     (IIR2Coefficients.notch f d q fs).a3 =
       (IIR2Coefficients.notch f d q fs).g * (IIR2Coefficients.notch f d q fs).a2) ∧
    ((IIR2Coefficients.allpass f d q fs).a = 1 ∧
     (IIR2Coefficients.allpass f d q fs).k = 1 / q ∧
     (IIR2Coefficients.allpass f d q fs).a1 =
       1 / (1 + (IIR2Coefficients.allpass f d q fs).g *
         ((IIR2Coefficients.allpass f d q fs).g + (IIR2Coefficients.allpass f d q fs).k)) ∧
     (IIR2Coefficients.allpass f d q fs).a2 =
       (IIR2Coefficients.allpass f d q fs).g * (IIR2Coefficients.allpass f d q fs).a1 ∧
     (IIR2Coefficients.allpass f d q fs).a3 =
       (IIR2Coefficients.allpass f d q fs).g * (IIR2Coefficients.allpass f d q fs).a2) ∧
    ((IIR2Coefficients.lowshelf f d q fs).a = (10 : ℝ) ^ (d / 40) ∧
     (IIR2Coefficients.lowshelf f d q fs).k = 1 / q ∧
     (IIR2Coefficients.lowshelf f d q fs).a1 =
       1 / (1 + (IIR2Coefficients.lowshelf f d q fs).g *
         ((IIR2Coefficients.lowshelf f d q fs).g + (IIR2Coefficients.lowshelf f d q fs).k)) ∧
     (IIR2Coefficients.lowshelf f d q fs).a2 =
       (IIR2Coefficients.lowshelf f d q fs).g * (IIR2Coefficients.lowshelf f d q fs).a1 ∧
     (IIR2Coefficients.lowshelf f d q fs).a3 =
       (IIR2Coefficients.lowshelf f d q fs).g * (IIR2Coefficients.lowshelf f d q fs).a2) ∧
    ((IIR2Coefficients.highshelf f d q fs).a = (10 : ℝ) ^ (d / 40) ∧
     (IIR2Coefficients.highshelf f d q fs).k = 1 / q ∧
     (IIR2Coefficients.highshelf f d q fs).a1 =
       1 / (1 + (IIR2Coefficients.highshelf f d q fs).g *
         ((IIR2Coefficients.highshelf f d q fs).g + (IIR2Coefficients.highshelf f d q fs).k)) ∧
     (IIR2Coefficients.highshelf f d q fs).a2 =
       (IIR2Coefficients.highshelf f d q fs).g * (IIR2Coefficients.highshelf f d q fs).a1 ∧
     (IIR2Coefficients.highshelf f d q fs).a3 =
       (IIR2Coefficients.highshelf f d q fs).g * (IIR2Coefficients.highshelf f d q fs).a2) ∧
    ((IIR2Coefficients.bell f d q fs).a = (10 : ℝ) ^ (d / 40) ∧
     (IIR2Coefficients.bell f d q fs).k = 1 / (q * (IIR2Coefficients.bell f d q fs).a) ∧
     (IIR2Coefficients.bell f d q fs).a1 =
       1 / (1 + (IIR2Coefficients.bell f d q fs).g *
         ((IIR2Coefficients.bell f d q fs).g + (IIR2Coefficients.bell f d q fs).k)) ∧
     (IIR2Coefficients.bell f d q fs).a2 =
       (IIR2Coefficients.bell f d q fs).g * (IIR2Coefficients.bell f d q fs).a1 ∧
     (IIR2Coefficients.bell f d q fs).a3 =
       (IIR2Coefficients.bell f d q fs).g * (IIR2Coefficients.bell f d q fs).a2) :=
  ⟨⟨rfl, rfl, rfl, rfl, rfl⟩, ⟨rfl, rfl, rfl, rfl, rfl⟩, ⟨rfl, rfl, rfl, rfl, rfl⟩,
   ⟨rfl, rfl, rfl, rfl, rfl⟩, ⟨rfl, rfl, rfl, rfl, rfl⟩, ⟨rfl, rfl, rfl, rfl, rfl⟩,
   ⟨rfl, rfl, rfl, rfl, rfl⟩, ⟨rfl, rfl, rfl, rfl, rfl⟩⟩

/-- Claim C10: on every common input tuple the order-2 designers lowpass,
highpass, bandpass, notch and allpass ignore the gain argument and agree on
the fields a, g, gpow2, k, a1, a2, a3 with a = 1, so they differ at most in
the output-mixing fields m0, m1, m2. -/
theorem c10_non_shelving_common_core (f d e q fs : ℝ) :
    IIR2Coefficients.lowpass f d q fs = IIR2Coefficients.lowpass f e q fs ∧
    IIR2Coefficients.highpass f d q fs = IIR2Coefficients.highpass f e q fs ∧
    IIR2Coefficients.bandpass f d q fs = IIR2Coefficients.bandpass f e q fs ∧
    IIR2Coefficients.notch f d q fs = IIR2Coefficients.notch f e q fs ∧
    IIR2Coefficients.allpass f d q fs = IIR2Coefficients.allpass f e q fs ∧
    (IIR2Coefficients.lowpass f d q fs).a = 1 ∧
    (IIR2Coefficients.highpass f d q fs).core = (IIR2Coefficients.lowpass f d q fs).core ∧
    (IIR2Coefficients.bandpass f d q fs).core = (IIR2Coefficients.lowpass f d q fs).core ∧
    (IIR2Coefficients.notch f d q fs).core = (IIR2Coefficients.lowpass f d q fs).core ∧
    (IIR2Coefficients.allpass f d q fs).core = (IIR2Coefficients.lowpass f d q fs).core :=
  ⟨rfl, rfl, rfl, rfl, rfl, rfl, rfl, rfl, rfl, rfl⟩

/-- Claim C6: each frequency-response evaluator builds z from cos and sin of
-2π f / fs, which is exactly exp(-j 2π f / fs), and returns the rational
function of z stated in the spec, computed from the coefficient set alone
with no use of the time-domain recurrence or any filter state. -/
theorem c6_bode_sample_matches_spec
    (c1 : IIR1Coefficients) (c2 : IIR2Coefficients) (f fs : ℝ) :
    c1.get_bode_sample f fs = specEvaluate1 c1 f fs ∧
    c2.get_bode_sample f fs = specEvaluate2 c2 f fs := by
  constructor
  · simp only [IIR1Coefficients.get_bode_sample, specEvaluate1, Complex.exp_mul_I,
      Complex.ofReal_cos, Complex.ofReal_sin]
  · simp only [IIR2Coefficients.get_bode_sample, specEvaluate2, Complex.exp_mul_I,
      Complex.ofReal_cos, Complex.ofReal_sin]

/-- Claim C1 is violated by the code: at gainDb = 20 the order-1 shelving
designers return amplitude a = 1, because the source raises the literal 1.0
rather than 10.0 to db_gain/20, while the claimed amplitude 10^(20/20)
equals 10, and 1 and 10 differ. -/
theorem c1_order1_shelf_amplitude_bug :
    (IIR1Coefficients.lowshelf 1000 20 48000).a = 1 ∧
    (IIR1Coefficients.highshelf 1000 20 48000).a = 1 ∧
    (10 : ℝ) ^ ((20 : ℝ) / 20) = 10 ∧
    (1 : ℝ) ≠ 10 := by
  have h20 : ((20 : ℝ) / 20) = 1 := by norm_num
  refine ⟨Real.one_rpow _, Real.one_rpow _, ?_, by norm_num⟩
  rw [h20, Real.rpow_one]

/-- Claim C2 is violated by the code: the order-1 designers clamp the cutoff
with the constant 0.05 rather than 0.5, so at cutoff 20000 and sample rate
48000 the lowpass prewarped cutoff is tan(π 2400 / 48000), which differs
from the claimed tan(π min(20000, 48000 / 2) / 48000). -/
theorem c2_order1_nyquist_clamp_bug :
    (IIR1Coefficients.lowpass 20000 0 48000).g = Real.tan (π * 2400 / 48000) ∧
    Real.tan (π * 2400 / 48000) ≠ Real.tan (π * min 20000 (48000 / 2) / 48000) := by
  constructor
  · show Real.tan (π * min (20000 : ℝ) (48000 * 0.05) / 48000) = _
    rw [min_eq_right (by norm_num : (48000 : ℝ) * 0.05 ≤ 20000)]
    norm_num
  · rw [min_eq_left (by norm_num : (20000 : ℝ) ≤ 48000 / 2)]
    have e1 : π * 2400 / 48000 = π / 20 := by ring
    have e2 : π * 20000 / 48000 = 5 * π / 12 := by ring
    rw [e1, e2]
    have hlt : Real.tan (π / 20) < Real.tan (5 * π / 12) := by
      apply Real.tan_lt_tan_of_nonneg_of_lt_pi_div_two
      · positivity
      · linarith [Real.pi_pos]
      · linarith [Real.pi_pos]
    exact ne_of_lt hlt

/-- The design angle produced from a positive cutoff, a positive sample rate
and a clamp constant at most one half lies in [0, π/2], so its tangent is
nonnegative. -/
lemma tan_clamped_angle_nonneg {f0 fs c : ℝ} (hf0 : 0 < f0) (hfs : 0 < fs)
    (hc : 0 < c) (hc2 : c ≤ 1 / 2) :
    0 ≤ Real.tan (π * min f0 (fs * c) / fs) := by
  have hm : 0 < min f0 (fs * c) := lt_min hf0 (by positivity)
  have hle : min f0 (fs * c) ≤ fs * c := min_le_right _ _
  apply Real.tan_nonneg_of_nonneg_of_le_pi_div_two
  · positivity
  · rw [div_le_iff₀ hfs]
    have h1 : π * min f0 (fs * c) ≤ π * (fs * c) :=
      mul_le_mul_of_nonneg_left hle Real.pi_pos.le
    have h2 : fs * c ≤ fs * (1 / 2) := mul_le_mul_of_nonneg_left hc2 hfs.le
    have h3 : π * (fs * c) ≤ π * (fs * (1 / 2)) :=
      mul_le_mul_of_nonneg_left h2 Real.pi_pos.le
    nlinarith [h1, h3]

/-- With nonnegative prewarped cutoff and positive damping the implicit
feedback denominator of the order-2 designers is positive. -/
lemma one_add_g_mul_pos {g k : ℝ} (hg : 0 ≤ g) (hk : 0 < k) :
    0 < 1 + g * (g + k) := by nlinarith

/-- With nonnegative prewarped cutoff the order-1 feedback denominator is
positive. -/
lemma one_add_g_pos {g : ℝ} (hg : 0 ≤ g) : 0 < 1 + g := by linarith

/-- Claim C7: for positive sample rate, a cutoff between zero and Nyquist and
positive Q, every designer of either order returns a nonnegative prewarped
cutoff g, and the denominator of the division defining a1 is positive, so a1
is obtained by a division with nonzero divisor and a2, a3 are finite
products: no coefficient degenerates. -/
theorem c7_designed_coefficients_finite (f0 d q fs : ℝ)
    (hfs : 0 < fs) (hf0 : 0 < f0) (hnyq : f0 ≤ fs / 2) (hq : 0 < q) :
    (0 ≤ (IIR1Coefficients.lowpass f0 d fs).g ∧
      0 < 1 + (IIR1Coefficients.lowpass f0 d fs).g) ∧
    (0 ≤ (IIR1Coefficients.highpass f0 d fs).g ∧
      0 < 1 + (IIR1Coefficients.highpass f0 d fs).g) ∧
    (0 ≤ (IIR1Coefficients.allpass f0 d fs).g ∧
      0 < 1 + (IIR1Coefficients.allpass f0 d fs).g) ∧
    (0 ≤ (IIR1Coefficients.lowshelf f0 d fs).g ∧
      0 < 1 + (IIR1Coefficients.lowshelf f0 d fs).g) ∧
    (0 ≤ (IIR1Coefficients.highshelf f0 d fs).g ∧
      0 < 1 + (IIR1Coefficients.highshelf f0 d fs).g) ∧
    (0 ≤ (IIR2Coefficients.lowpass f0 d q fs).g ∧
      0 < 1 + (IIR2Coefficients.lowpass f0 d q fs).g *
        ((IIR2Coefficients.lowpass f0 d q fs).g + (IIR2Coefficients.lowpass f0 d q fs).k)) ∧
    (0 ≤ (IIR2Coefficients.highpass f0 d q fs).g ∧
      0 < 1 + (IIR2Coefficients.highpass f0 d q fs).g *
        ((IIR2Coefficients.highpass f0 d q fs).g + (IIR2Coefficients.highpass f0 d q fs).k)) ∧
    (0 ≤ (IIR2Coefficients.bandpass f0 d q fs).g ∧
      0 < 1 + (IIR2Coefficients.bandpass f0 d q fs).g *
        ((IIR2Coefficients.bandpass f0 d q fs).g + (IIR2Coefficients.bandpass f0 d q fs).k)) ∧
    (0 ≤ (IIR2Coefficients.notch f0 d q fs).g ∧
      0 < 1 + (IIR2Coefficients.notch f0 d q fs).g *
        ((IIR2Coefficients.notch f0 d q fs).g + (IIR2Coefficients.notch f0 d q fs).k)) ∧
    (0 ≤ (IIR2Coefficients.allpass f0 d q fs).g ∧
      0 < 1 + (IIR2Coefficients.allpass f0 d q fs).g *
        ((IIR2Coefficients.allpass f0 d q fs).g + (IIR2Coefficients.allpass f0 d q fs).k)) ∧
    (0 ≤ (IIR2Coefficients.lowshelf f0 d q fs).g ∧
      0 < 1 + (IIR2Coefficients.lowshelf f0 d q fs).g *
        ((IIR2Coefficients.lowshelf f0 d q fs).g + (IIR2Coefficients.lowshelf f0 d q fs).k)) ∧
    (0 ≤ (IIR2Coefficients.highshelf f0 d q fs).g ∧
      0 < 1 + (IIR2Coefficients.highshelf f0 d q fs).g *
        ((IIR2Coefficients.highshelf f0 d q fs).g + (IIR2Coefficients.highshelf f0 d q fs).k)) ∧
    (0 ≤ (IIR2Coefficients.bell f0 d q fs).g ∧
      0 < 1 + (IIR2Coefficients.bell f0 d q fs).g *
        ((IIR2Coefficients.bell f0 d q fs).g + (IIR2Coefficients.bell f0 d q fs).k)) := by
  have ht05 : 0 ≤ Real.tan (π * min f0 (fs * 0.05) / fs) :=
    tan_clamped_angle_nonneg hf0 hfs (by norm_num) (by norm_num)
  have ht5 : 0 ≤ Real.tan (π * min f0 (fs * 0.5) / fs) :=
    tan_clamped_angle_nonneg hf0 hfs (by norm_num) (by norm_num)
  have hk : (0 : ℝ) < 1 / q := by positivity
  have hkb : (0 : ℝ) < 1 / (q * (10 : ℝ) ^ (d / 40)) := by positivity
  have hgls1 : 0 ≤ Real.tan (π * min f0 (fs * 0.05) / fs) / Real.sqrt ((1 : ℝ) ^ (d / 20)) :=
    div_nonneg ht05 (Real.sqrt_nonneg _)
  have hghs1 : 0 ≤ Real.tan (π * min f0 (fs * 0.05) / fs) * Real.sqrt ((1 : ℝ) ^ (d / 20)) :=
    mul_nonneg ht05 (Real.sqrt_nonneg _)
  have hgls2 : 0 ≤ Real.tan (π * min f0 (fs * 0.5) / fs) / Real.sqrt ((10 : ℝ) ^ (d / 40)) :=
    div_nonneg ht5 (Real.sqrt_nonneg _)
  have hghs2 : 0 ≤ Real.tan (π * min f0 (fs * 0.5) / fs) * Real.sqrt ((10 : ℝ) ^ (d / 40)) :=
    mul_nonneg ht5 (Real.sqrt_nonneg _)
  exact ⟨⟨ht05, one_add_g_pos ht05⟩,
    ⟨ht05, one_add_g_pos ht05⟩,
    ⟨ht05, one_add_g_pos ht05⟩,
    ⟨hgls1, one_add_g_pos hgls1⟩,
    ⟨hghs1, one_add_g_pos hghs1⟩,
    ⟨ht5, one_add_g_mul_pos ht5 hk⟩,
    ⟨ht5, one_add_g_mul_pos ht5 hk⟩,
    ⟨ht5, one_add_g_mul_pos ht5 hk⟩,
    ⟨ht5, one_add_g_mul_pos ht5 hk⟩,
    ⟨ht5, one_add_g_mul_pos ht5 hk⟩,
    ⟨hgls2, one_add_g_mul_pos hgls2 hk⟩,
    ⟨hghs2, one_add_g_mul_pos hghs2 hk⟩,
    ⟨ht5, one_add_g_mul_pos ht5 hkb⟩⟩

/-- Witness for claim C7: the theorem applied at cutoff 100 Hz, gain 0 dB,
Q 1 and sample rate 48000 Hz, discharging every hypothesis there. -/
theorem c7_designed_coefficients_finite_witness :
    ((0 : ℝ) < 48000 ∧ (0 : ℝ) < 100 ∧ (100 : ℝ) ≤ 48000 / 2 ∧ (0 : ℝ) < 1) ∧
    0 ≤ (IIR1Coefficients.lowpass 100 0 48000).g ∧
    0 ≤ (IIR2Coefficients.lowpass 100 0 1 48000).g :=
  ⟨⟨by norm_num, by norm_num, by norm_num, by norm_num⟩,
   (c7_designed_coefficients_finite 100 0 1 48000
      (by norm_num) (by norm_num) (by norm_num) (by norm_num)).1.1,
   (c7_designed_coefficients_finite 100 0 1 48000
      (by norm_num) (by norm_num) (by norm_num) (by norm_num)).2.2.2.2.2.1.1⟩

end

